import Mathlib

/-!
# Verification of the Inclusive-Reading-Aid document-import and read-aloud logic

Shallow embedding of `src/frontend/src/pages/DyslexiaFont.js`: the file-upload
handler (`handleFileUpload`), the format-specific extractors (`readPDF`,
`readDOCX`, `readImage`), the text-to-speech controls (`playTTS`, `stopTTS`)
and the settings persistence (the load-preferences effect).

External collaborators (pdfjs, mammoth, Tesseract, the browser speech-synthesis
queue, localStorage) are modelled as abstract data: an extractor is a function
into `Except`, a PDF document is its page count plus a page-indexed list of
text items, the speech queue is a list of utterances, and the persisted blob is
a record of optional fields together with the three parse outcomes.
-/

namespace DyslexiaFont

/-! ## JavaScript string methods

The handler uses `file.name.toLowerCase()` and `ext.endsWith(x)`.  They are
embedded over the character list of the string (for the ASCII suffixes and
names involved, `toLowerCase` is exactly the character-wise lower-casing). -/

/-- `s.toLowerCase()`: lowercase every character. -/
def jsToLowerCase (s : String) : String :=
  ⟨s.data.map Char.toLower⟩

/-- `s.endsWith(post)`: `post` is a suffix of `s`. -/
def jsEndsWith (s post : String) : Bool :=
  post.data.isSuffixOf s.data

/-! ## Files and external extraction collaborators -/

/-- An uploaded file: its `name` (used for suffix classification) and the
string `file.text()` resolves to. -/
structure File where
  name : String
  content : String
deriving DecidableEq

/-- One text fragment of a PDF page, as produced by pdfjs
(`content.items`, each with a `.str` field). -/
structure TextItem where
  str : String
deriving DecidableEq

/-- A parsed PDF document as pdfjs presents it: `numPages`, and `getPage i`
giving the text items of page `i` (pages are 1-indexed). -/
structure PdfDocument where
  numPages : Nat
  getPage : Nat → List TextItem

/-- The three external extraction collaborators. A `.error` value models the
library's promise rejecting (parse failure, OCR failure). -/
structure Extractors where
  getDocument : File → Except Unit PdfDocument
  extractRawText : File → Except Unit String
  recognize : File → Except Unit String

/-! ## The extractor adapters (`readPDF`, `readDOCX`, `readImage`)

Each mirrors the corresponding `async function` in the source.  None of them
has a `try`/`catch`: when the collaborator rejects, `setText` never runs (the
buffer keeps its old value) and the rejection goes unhandled.  Each adapter
therefore returns the new buffer value together with a flag recording whether
an unhandled rejection occurred. -/

/-- The loop body of `readPDF`:
`for (let i = 1; i <= pdf.numPages; i++) fullText += items.join(" ") + "\n"`. -/
def pdfFullText (pdf : PdfDocument) : String :=
  (List.range' 1 pdf.numPages).foldl
    (fun fullText i =>
      fullText ++ String.intercalate " " ((pdf.getPage i).map TextItem.str) ++ "\n")
    ""

/-- `readPDF(file)` acting on the current buffer: on success the buffer becomes
the page-concatenated text; on rejection the buffer is untouched and the
rejection is unhandled (second component `true`). -/
def readPDF (ex : Extractors) (file : File) (buffer : String) : String × Bool :=
  match ex.getDocument file with
  | .ok pdf => (pdfFullText pdf, false)
  | .error _ => (buffer, true)

/-- `readDOCX(file)`: `mammoth.extractRawText`, result used unmodified. -/
def readDOCX (ex : Extractors) (file : File) (buffer : String) : String × Bool :=
  match ex.extractRawText file with
  | .ok value => (value, false)
  | .error _ => (buffer, true)

/-- `readImage(file)`: `Tesseract.recognize(file, "eng")`, result used
unmodified. -/
def readImage (ex : Extractors) (file : File) (buffer : String) : String × Bool :=
  match ex.recognize file with
  | .ok value => (value, false)
  | .error _ => (buffer, true)

/-! ## The upload handler -/

/-- The state `handleFileUpload` can read and write: the Text Buffer (`text`
React state) and the file input element's `value`. -/
structure UploadState where
  text : String
  inputValue : String
deriving DecidableEq

/-- Everything observable about one run of `handleFileUpload`: the final Text
Buffer, the final input value, the `alert` calls issued, and whether an
extractor promise rejected with no handler attached. -/
structure UploadOutcome where
  text : String
  inputValue : String
  alerts : List String
  unhandledRejection : Bool
deriving DecidableEq

/-- `handleFileUpload(e)` from the source, for `file = e.target.files?.[0]`:
guard on a missing file, lowercase the name, dispatch on the suffix chain
`.txt` / `.pdf` / `.docx` / image suffixes / `alert("Unsupported file type")`,
then reset `e.target.value = ""`. -/
def handleFileUpload (ex : Extractors) (st : UploadState) (file : Option File) :
    UploadOutcome :=
  match file with
  | none => ⟨st.text, st.inputValue, [], false⟩
  | some f =>
    let ext := jsToLowerCase f.name
    let r : String × List String × Bool :=
      if jsEndsWith ext ".txt" then
        (f.content, [], false)
      else if jsEndsWith ext ".pdf" then
        let p := readPDF ex f st.text
        (p.1, [], p.2)
      else if jsEndsWith ext ".docx" then
        let p := readDOCX ex f st.text
        (p.1, [], p.2)
      else if [".png", ".jpg", ".jpeg", ".bmp"].any (fun x => jsEndsWith ext x) then
        let p := readImage ex f st.text
        (p.1, [], p.2)
      else
        (st.text, ["Unsupported file type"], false)
    ⟨r.1, "", r.2.1, r.2.2⟩

/-- The five-way file classification implicit in `handleFileUpload`'s
if/else-if chain, as one pure function of the file name. -/
inductive FileKind
  | text
  | pdf
  | docx
  | image
  | unsupported
deriving DecidableEq

/-- Classify a file name exactly as `handleFileUpload` does: lowercase it,
then test the suffixes in the source's order. -/
def classifyFile (name : String) : FileKind :=
  let ext := jsToLowerCase name
  if jsEndsWith ext ".txt" then .text
  else if jsEndsWith ext ".pdf" then .pdf
  else if jsEndsWith ext ".docx" then .docx
  else if [".png", ".jpg", ".jpeg", ".bmp"].any (fun x => jsEndsWith ext x) then .image
  else .unsupported

/-! ## Read-aloud (text-to-speech) controls

`playTTS` and `stopTTS` from the source.  The host capability
`"speechSynthesis" in window` is a boolean of the environment; the browser's
utterance queue (`speechSynthesis.speak` enqueues, `speechSynthesis.cancel`
empties) is a list of utterances.  `stopTTS` performs
`window.speechSynthesis.cancel()` with no capability check, so in an
unsupported host it throws a `TypeError`; this is modelled by `Except`. -/

/-- An utterance as built by `new SpeechSynthesisUtterance(text)` with
`utter.rate = rate`. -/
structure Utterance where
  text : String
  rate : ℚ
deriving DecidableEq

/-- The state the TTS handlers read and write: the Text Buffer and rate React
state, the `isReading` flag, and the host speech-synthesis queue. -/
structure TtsState where
  text : String
  rate : ℚ
  isReading : Bool
  queue : List Utterance
deriving DecidableEq

/-- Result of `playTTS`: the new state plus any `alert` calls. -/
structure TtsOutcome where
  state : TtsState
  alerts : List String
deriving DecidableEq

/-- The JavaScript exception thrown by dereferencing an undefined member. -/
inductive JsError
  | typeError
deriving DecidableEq

/-- `playTTS()` from the source: if `!("speechSynthesis" in window)` alert and
return; otherwise `cancel()`, build the utterance from the current `text` and
`rate`, `setIsReading(true)`, and `speak(utter)`. -/
def playTTS (supported : Bool) (s : TtsState) : TtsOutcome :=
  if !supported then
    { state := s, alerts := ["Browser does not support TTS"] }
  else
    let utter : Utterance := { text := s.text, rate := s.rate }
    { state := { s with isReading := true, queue := [] ++ [utter] }, alerts := [] }

/-- `stopTTS()` from the source: `window.speechSynthesis.cancel()` (with no
capability guard — throws in an unsupported host) then
`setIsReading(false)`. -/
def stopTTS (supported : Bool) (s : TtsState) : Except JsError TtsState :=
  if !supported then .error .typeError
  else .ok { s with queue := [], isReading := false }

/-! ## Settings persistence

The load-preferences effect:
`JSON.parse(localStorage.getItem("dyslexia_ui_settings") || "{}")` inside
`try`/`catch`, then `if (s.field) setField(s.field)` for each field.  The six
persisted fields are those the save effect serializes; the speech rate is not
persisted.  Each guard is JavaScript truthiness: a number aplies only when
nonzero, a string only when nonempty. -/

/-- The settings React state touched by the load effect, numeric fields as
exact rationals. -/
structure Settings where
  font : String
  fontSize : ℚ
  lineHeight : ℚ
  letterSpacing : ℚ
  bgColor : String
  textColor : String
deriving DecidableEq

/-- The `useState` initial values of the six persisted fields. -/
def defaultSettings : Settings :=
  { font := "normal"
    fontSize := 20
    lineHeight := 1.6
    letterSpacing := 0
    bgColor := "#fffef0"
    textColor := "#222222" }

/-- A successfully parsed persisted blob: each key optionally present. -/
structure SettingsBlob where
  font : Option String := none
  fontSize : Option ℚ := none
  lineHeight : Option ℚ := none
  letterSpacing : Option ℚ := none
  bgColor : Option String := none
  textColor : Option String := none
deriving DecidableEq

/-- The three outcomes of
`JSON.parse(localStorage.getItem(...) || "\x7b\x7d")`: no (or empty) stored
entry, a stored string that fails to parse, or a parsed record. -/
inductive StoredBlob
  | missing
  | corrupt
  | parsed (b : SettingsBlob)

/-- The six conditional setters of the load effect, in source order; each
mirrors `if (s.field) setField(s.field)` including JavaScript truthiness. -/
def applyBlob (d : Settings) (s : SettingsBlob) : Settings :=
  let d := match s.font with
    | some v => if v != "" then { d with font := v } else d
    | none => d
  let d := match s.fontSize with
    | some v => if v != 0 then { d with fontSize := v } else d
    | none => d
  let d := match s.lineHeight with
    | some v => if v != 0 then { d with lineHeight := v } else d
    | none => d
  let d := match s.letterSpacing with
    | some v => if v != 0 then { d with letterSpacing := v } else d
    | none => d
  let d := match s.bgColor with
    | some v => if v != "" then { d with bgColor := v } else d
    | none => d
  match s.textColor with
    | some v => if v != "" then { d with textColor := v } else d
    | none => d

/-- The whole load effect: a missing entry parses the `"\x7b\x7d"` fallback to
an empty record, a corrupt entry is swallowed by the `catch` leaving every
default, a parsed record goes through the conditional setters. -/
def loadSettings : StoredBlob → Settings
  | .missing => applyBlob defaultSettings {}
  | .corrupt => defaultSettings
  | .parsed b => applyBlob defaultSettings b

/-- Modelled from the spec: the overlay §4.3 describes, which applies exactly
the keys *present* in the blob onto the defaults ("partial overlay — only
present keys overwrite defaults"), regardless of their value.  Named
separately so it can be compared with `loadSettings`, which is translated from
the source. -/
def specOverlayPresent (d : Settings) (b : SettingsBlob) : Settings :=
  { font := b.font.getD d.font
    fontSize := b.fontSize.getD d.fontSize
    lineHeight := b.lineHeight.getD d.lineHeight
    letterSpacing := b.letterSpacing.getD d.letterSpacing
    bgColor := b.bgColor.getD d.bgColor
    textColor := b.textColor.getD d.textColor }

/-- A blob every present value of which is JavaScript-truthy (nonzero numbers,
nonempty strings). -/
def blobTruthy (b : SettingsBlob) : Bool :=
  b.font.all (· != "") && b.fontSize.all (· != 0) &&
  b.lineHeight.all (· != 0) && b.letterSpacing.all (· != 0) &&
  b.bgColor.all (· != "") && b.textColor.all (· != "")

/-! ## Concrete fixtures used to instantiate the theorems -/

/-- Extractors all of whose collaborators reject: models the external
libraries failing on every input. -/
def exFail : Extractors :=
  { getDocument := fun _ => .error ()
    extractRawText := fun _ => .error ()
    recognize := fun _ => .error () }

/-- A 2-page PDF document whose pages carry the single fragments `"Hello"`
and `"World"`. -/
def docHW : PdfDocument :=
  { numPages := 2
    getPage := fun i => if i = 1 then [{ str := "Hello" }] else [{ str := "World" }] }

/-- Extractors whose PDF collaborator always parses to `docHW`. -/
def exHW : Extractors :=
  { getDocument := fun _ => .ok docHW
    extractRawText := fun _ => .error ()
    recognize := fun _ => .error () }

/-! ## Helper lemmas: accumulating string folds versus `String.join` -/

/-- Folding `++` over a list distributes over a decomposition of the initial
accumulator. -/
theorem strFoldl_concat (l : List String) :
    ∀ a b : String, l.foldl (· ++ ·) (a ++ b) = a ++ l.foldl (· ++ ·) b := by
  induction l with
  | nil => intro a b; rfl
  | cons s t ih =>
    intro a b
    rw [List.foldl_cons, String.append_assoc, ih, List.foldl_cons]

/-- `String.join` unfolds one element at a time. -/
theorem strJoin_cons (s : String) (l : List String) :
    String.join (s :: l) = s ++ String.join l := by
  show l.foldl (· ++ ·) ("" ++ s) = s ++ l.foldl (· ++ ·) ""
  rw [String.empty_append, ← String.append_empty s, strFoldl_concat,
    String.append_empty]

/-- An accumulating fold that appends `g x` for each element equals the
initial accumulator followed by the join of the images, in element order. -/
theorem strFoldl_eq_join {α : Type} (g : α → String) :
    ∀ (l : List α) (init : String),
      l.foldl (fun acc x => acc ++ g x) init = init ++ String.join (l.map g) := by
  intro l
  induction l with
  | nil => intro init; simp [String.join]
  | cons a t ih =>
    intro init
    rw [List.map_cons, List.foldl_cons, ih, strJoin_cons, String.append_assoc]

/-! ## The claims -/

/-- Claim C6: invoking `playTTS` while already speaking cancels the prior
utterance before enqueuing a new one built from the current Text Buffer
snapshot and current rate, so after any two successive calls (with possibly
changed buffer and rate in between) exactly one utterance is in the speech
queue — the second supersedes the first; no queueing occurs. -/
theorem claim6_play_supersedes (s : TtsState) (t' : String) (r' : ℚ) :
    (playTTS true { (playTTS true s).state with text := t', rate := r' }).state.queue
        = [{ text := t', rate := r' }] ∧
    (playTTS true { (playTTS true s).state with text := t', rate := r' }).state.queue.length
        = 1 ∧
    (playTTS true { (playTTS true s).state with text := t', rate := r' }).state.isReading
        = true := by
  refine ⟨rfl, rfl, rfl⟩

/-- Claim C7: when the host lacks the speech-synthesis capability, `playTTS`
reports the unsupported-TTS failure via an alert and leaves the whole state
unchanged — in particular an idle controller remains idle and the Text Buffer
is untouched. -/
theorem claim7_play_unsupported (s : TtsState) :
    playTTS false s = { state := s, alerts := ["Browser does not support TTS"] } ∧
    (playTTS false s).state.isReading = s.isReading ∧
    (playTTS false s).state.text = s.text := by
  refine ⟨rfl, rfl, rfl⟩

/-- Claim C8: in a speech-capable host, `stopTTS` cancels any in-flight
utterance (empties the queue) and transitions to idle unconditionally from
every state, and it is idempotent: stopping the already-stopped state
produces the same state again. -/
theorem claim8_stop_idempotent (s : TtsState) :
    stopTTS true s = .ok { s with queue := [], isReading := false } ∧
    stopTTS true { s with queue := [], isReading := false }
        = .ok { s with queue := [], isReading := false } := by
  refine ⟨rfl, rfl⟩

/-- Claim C10: `stopTTS` performs no capability check: in a host without the
speech-synthesis capability it throws a `TypeError` (dereferencing the
undefined `window.speechSynthesis`) instead of being a safe no-op, whereas
`playTTS` in the same host checks first and returns with the state
unchanged. -/
theorem claim10_stop_unguarded (s : TtsState) :
    stopTTS false s = .error .typeError ∧ (playTTS false s).state = s := by
  refine ⟨rfl, rfl⟩

/-- Claim C9: after every import attempt on a selected file — success,
extraction failure, or the unsupported-type case alike — the file input's
value is reset to the empty string so the same file can be re-selected. -/
theorem claim9_input_reset (ex : Extractors) (st : UploadState) (f : File) :
    (handleFileUpload ex st (some f)).inputValue = "" := by
  unfold handleFileUpload
  rfl

/-- Claim C1: classification of an imported file is by filename suffix on the
lowercased name, first match wins in the fixed precedence txt, pdf, docx,
image; it depends only on the case-folded name; and `handleFileUpload` routes
each kind to exactly the matching extractor, any other name raising the
unsupported-file alert with the Text Buffer left untouched. -/
theorem claim1_suffix_classification (ex : Extractors) (st : UploadState) (f : File) :
    (classifyFile f.name = FileKind.text ↔
      jsEndsWith (jsToLowerCase f.name) ".txt" = true) ∧
    (classifyFile f.name = FileKind.pdf ↔
      jsEndsWith (jsToLowerCase f.name) ".txt" = false ∧
      jsEndsWith (jsToLowerCase f.name) ".pdf" = true) ∧
    (classifyFile f.name = FileKind.docx ↔
      jsEndsWith (jsToLowerCase f.name) ".txt" = false ∧
      jsEndsWith (jsToLowerCase f.name) ".pdf" = false ∧
      jsEndsWith (jsToLowerCase f.name) ".docx" = true) ∧
    (classifyFile f.name = FileKind.image ↔
      jsEndsWith (jsToLowerCase f.name) ".txt" = false ∧
      jsEndsWith (jsToLowerCase f.name) ".pdf" = false ∧
      jsEndsWith (jsToLowerCase f.name) ".docx" = false ∧
      ([".png", ".jpg", ".jpeg", ".bmp"].any
        (fun x => jsEndsWith (jsToLowerCase f.name) x)) = true) ∧
    (classifyFile f.name = FileKind.unsupported ↔
      jsEndsWith (jsToLowerCase f.name) ".txt" = false ∧
      jsEndsWith (jsToLowerCase f.name) ".pdf" = false ∧
      jsEndsWith (jsToLowerCase f.name) ".docx" = false ∧
      ([".png", ".jpg", ".jpeg", ".bmp"].any
        (fun x => jsEndsWith (jsToLowerCase f.name) x)) = false) ∧
    (∀ n₁ n₂ : String, jsToLowerCase n₁ = jsToLowerCase n₂ →
      classifyFile n₁ = classifyFile n₂) ∧
    (classifyFile f.name = FileKind.text →
      (handleFileUpload ex st (some f)).text = f.content) ∧
    (classifyFile f.name = FileKind.pdf →
      (handleFileUpload ex st (some f)).text = (readPDF ex f st.text).1) ∧
    (classifyFile f.name = FileKind.docx →
      (handleFileUpload ex st (some f)).text = (readDOCX ex f st.text).1) ∧
    (classifyFile f.name = FileKind.image →
      (handleFileUpload ex st (some f)).text = (readImage ex f st.text).1) ∧
    (classifyFile f.name = FileKind.unsupported →
      (handleFileUpload ex st (some f)).text = st.text ∧
      (handleFileUpload ex st (some f)).alerts = ["Unsupported file type"]) := by
  have hci : ∀ n₁ n₂ : String, jsToLowerCase n₁ = jsToLowerCase n₂ →
      classifyFile n₁ = classifyFile n₂ := by
    intro n₁ n₂ h
    unfold classifyFile
    rw [h]
  cases h1 : jsEndsWith (jsToLowerCase f.name) ".txt" <;>
  cases h2 : jsEndsWith (jsToLowerCase f.name) ".pdf" <;>
  cases h3 : jsEndsWith (jsToLowerCase f.name) ".docx" <;>
  cases h4 : [".png", ".jpg", ".jpeg", ".bmp"].any
      (fun x => jsEndsWith (jsToLowerCase f.name) x) <;>
    simp_all [classifyFile, handleFileUpload]

/-- Claim C1 witness: a file named `"A.TXT"` with content `"hello"` is
classified case-insensitively as plain text and its content replaces the
buffer. -/
theorem claim1_suffix_classification_witness :
    (handleFileUpload exFail { text := "old", inputValue := "sel" }
      (some { name := "A.TXT", content := "hello" })).text = "hello" :=
  (claim1_suffix_classification exFail { text := "old", inputValue := "sel" }
    { name := "A.TXT", content := "hello" }).2.2.2.2.2.2.1 (by decide)

/-- Claim C2: for a file dispatched to the PDF extractor whose document
parses, the buffer written by the import is the page-by-page concatenation,
in increasing page order 1 to `numPages`, of each page's fragments joined by
single spaces with a newline appended after each page. -/
theorem claim2_pdf_page_order (ex : Extractors) (st : UploadState) (f : File)
    (pdf : PdfDocument)
    (hk : classifyFile f.name = FileKind.pdf)
    (hdoc : ex.getDocument f = .ok pdf) :
    (handleFileUpload ex st (some f)).text =
      String.join ((List.range' 1 pdf.numPages).map fun i =>
        String.intercalate " " ((pdf.getPage i).map TextItem.str) ++ "\n") := by
  have hfold := strFoldl_eq_join
    (fun i => String.intercalate " " ((pdf.getPage i).map TextItem.str) ++ "\n")
    (List.range' 1 pdf.numPages) ""
  unfold classifyFile at hk
  cases h1 : jsEndsWith (jsToLowerCase f.name) ".txt" <;>
  cases h2 : jsEndsWith (jsToLowerCase f.name) ".pdf" <;>
  cases h3 : jsEndsWith (jsToLowerCase f.name) ".docx" <;>
  cases h4 : [".png", ".jpg", ".jpeg", ".bmp"].any
      (fun x => jsEndsWith (jsToLowerCase f.name) x) <;>
    simp_all [handleFileUpload, readPDF, pdfFullText, String.append_assoc]

/-- Claim C2 witness: the 2-page document with one-fragment pages `["Hello"]`
and `["World"]` yields the buffer `"Hello\nWorld\n"`. -/
theorem claim2_pdf_page_order_witness :
    (handleFileUpload exHW { text := "old", inputValue := "sel" }
      (some { name := "scan.pdf", content := "raw" })).text = "Hello\nWorld\n" := by
  have h := claim2_pdf_page_order exHW { text := "old", inputValue := "sel" }
    { name := "scan.pdf", content := "raw" } docHW (by decide) rfl
  rw [h]
  decide

/-- Claim C3 counterexample: importing `"report.pdf"` when the PDF
collaborator rejects leaves the buffer untouched, but the rejection goes
unhandled and no alert is issued — contradicting the claim that on any error
the error is surfaced to the user. -/
theorem claim3_cex :
    (handleFileUpload exFail { text := "old", inputValue := "sel" }
      (some { name := "report.pdf", content := "raw" })).unhandledRejection = true ∧
    (handleFileUpload exFail { text := "old", inputValue := "sel" }
      (some { name := "report.pdf", content := "raw" })).text = "old" ∧
    (handleFileUpload exFail { text := "old", inputValue := "sel" }
      (some { name := "report.pdf", content := "raw" })).alerts = [] := by
  refine ⟨by decide, by decide, by decide⟩

/-- Claim C3 (amended): on success the extracted string fully replaces the
Text Buffer; on any error (unsupported type, or a PDF, DOCX or OCR extraction
failure) the Text Buffer is left unchanged with no partial write; the
unsupported-type error is surfaced to the user via an alert, but extraction
failures are not surfaced — their promise rejections go unhandled. -/
theorem claim3_import_errors (ex : Extractors) (st : UploadState) (f : File) :
    (classifyFile f.name = FileKind.text →
      (handleFileUpload ex st (some f)).text = f.content) ∧
    (∀ pdf, classifyFile f.name = FileKind.pdf → ex.getDocument f = .ok pdf →
      (handleFileUpload ex st (some f)).text = pdfFullText pdf) ∧
    (∀ v, classifyFile f.name = FileKind.docx → ex.extractRawText f = .ok v →
      (handleFileUpload ex st (some f)).text = v) ∧
    (∀ v, classifyFile f.name = FileKind.image → ex.recognize f = .ok v →
      (handleFileUpload ex st (some f)).text = v) ∧
    (∀ e, classifyFile f.name = FileKind.pdf → ex.getDocument f = .error e →
      (handleFileUpload ex st (some f)).text = st.text ∧
      (handleFileUpload ex st (some f)).alerts = [] ∧
      (handleFileUpload ex st (some f)).unhandledRejection = true) ∧
    (∀ e, classifyFile f.name = FileKind.docx → ex.extractRawText f = .error e →
      (handleFileUpload ex st (some f)).text = st.text ∧
      (handleFileUpload ex st (some f)).alerts = [] ∧
      (handleFileUpload ex st (some f)).unhandledRejection = true) ∧
    (∀ e, classifyFile f.name = FileKind.image → ex.recognize f = .error e →
      (handleFileUpload ex st (some f)).text = st.text ∧
      (handleFileUpload ex st (some f)).alerts = [] ∧
      (handleFileUpload ex st (some f)).unhandledRejection = true) ∧
    (classifyFile f.name = FileKind.unsupported →
      (handleFileUpload ex st (some f)).text = st.text ∧
      (handleFileUpload ex st (some f)).alerts = ["Unsupported file type"] ∧
      (handleFileUpload ex st (some f)).unhandledRejection = false) := by
  unfold classifyFile
  cases h1 : jsEndsWith (jsToLowerCase f.name) ".txt" <;>
  cases h2 : jsEndsWith (jsToLowerCase f.name) ".pdf" <;>
  cases h3 : jsEndsWith (jsToLowerCase f.name) ".docx" <;>
  cases h4 : [".png", ".jpg", ".jpeg", ".bmp"].any
      (fun x => jsEndsWith (jsToLowerCase f.name) x) <;>
    simp_all [handleFileUpload, readPDF, readDOCX, readImage]

/-- Claim C3 witness: a DOCX file whose extractor rejects leaves the buffer
at its old value with nothing surfaced. -/
theorem claim3_import_errors_witness :
    (handleFileUpload exFail { text := "old", inputValue := "sel" }
      (some { name := "essay.docx", content := "raw" })).text = "old" ∧
    (handleFileUpload exFail { text := "old", inputValue := "sel" }
      (some { name := "essay.docx", content := "raw" })).alerts = [] ∧
    (handleFileUpload exFail { text := "old", inputValue := "sel" }
      (some { name := "essay.docx", content := "raw" })).unhandledRejection = true :=
  (claim3_import_errors exFail { text := "old", inputValue := "sel" }
    { name := "essay.docx", content := "raw" }).2.2.2.2.2.1 () (by decide) rfl

/-- Claim C4 counterexample: loading a persisted blob with `fontSize` 99
stores 99 as-is — outside the closed interval `[14, 48]`, neither clamped
nor rejected. -/
theorem claim4_cex :
    (loadSettings (.parsed { fontSize := some 99 })).fontSize = 99 ∧
    ¬ (14 ≤ (loadSettings (.parsed { fontSize := some 99 })).fontSize ∧
        (loadSettings (.parsed { fontSize := some 99 })).fontSize ≤ 48) := by
  refine ⟨by decide, by decide⟩

/-- Claim C4 (amended): the settings load performs no range validation: any
nonzero numeric value arriving programmatically via the persisted blob is
stored as-is in the corresponding field, even when it lies outside the
field's UI interval; the intervals are maintained only by the UI sliders'
min/max bounds. -/
theorem claim4_no_range_validation (v : ℚ) (hv : v ≠ 0) :
    (loadSettings (.parsed { fontSize := some v })).fontSize = v ∧
    (loadSettings (.parsed { lineHeight := some v })).lineHeight = v ∧
    (loadSettings (.parsed { letterSpacing := some v })).letterSpacing = v := by
  refine ⟨?_, ?_, ?_⟩ <;> simp [loadSettings, applyBlob, bne_iff_ne, hv]

/-- Claim C4 witness: the persisted `fontSize` 99 is stored as 99. -/
theorem claim4_no_range_validation_witness :
    (99 : ℚ) ≠ 0 ∧
    (loadSettings (.parsed { fontSize := some (99 : ℚ) })).fontSize = 99 :=
  ⟨by decide, (claim4_no_range_validation 99 (by decide)).1⟩

/-- Claim C5 counterexample: the blob with the key `fontSize` present at
value 0 is parsable, yet the load does not overlay that present key — it
yields the default 20, not 0 — so the load differs from the overlay of
exactly the present keys. -/
theorem claim5_cex :
    loadSettings (.parsed { fontSize := some 0 }) ≠
      specOverlayPresent defaultSettings { fontSize := some 0 } := by
  have hL : (loadSettings (.parsed { fontSize := some 0 })).fontSize = 20 := by
    decide
  have hR : (specOverlayPresent defaultSettings { fontSize := some 0 }).fontSize = 0 := by
    decide
  intro h
  rw [h, hR] at hL
  exact absurd hL (by decide)

/-- Claim C5 (amended): the settings load never propagates a parsing error —
a missing, empty, or corrupt persisted blob yields exactly the default
settings for every field — and for a parsable blob all of whose present
values are truthy (nonzero numbers, nonempty strings) it overlays exactly
the present keys onto the defaults; a present key with a falsy value (0 or
the empty string) is ignored and left at its default. -/
theorem claim5_load_fallback_overlay (b : SettingsBlob) (hb : blobTruthy b = true) :
    loadSettings (.parsed b) = specOverlayPresent defaultSettings b ∧
    loadSettings .corrupt = defaultSettings ∧
    loadSettings .missing = defaultSettings := by
  refine ⟨?_, rfl, rfl⟩
  obtain ⟨f, fs, lh, ls, bg, tc⟩ := b
  simp only [blobTruthy, Bool.and_eq_true] at hb
  obtain ⟨⟨⟨⟨⟨h1, h2⟩, h3⟩, h4⟩, h5⟩, h6⟩ := hb
  cases f <;> cases fs <;> cases lh <;> cases ls <;> cases bg <;> cases tc <;>
    simp_all [loadSettings, applyBlob, specOverlayPresent]

/-- Claim C5 witness: the partial truthy blob `font = "opendys"`,
`fontSize = 30` overlays exactly those two keys onto the defaults. -/
theorem claim5_load_fallback_overlay_witness :
    blobTruthy { font := some "opendys", fontSize := some (30 : ℚ) } = true ∧
    loadSettings (.parsed { font := some "opendys", fontSize := some (30 : ℚ) }) =
      specOverlayPresent defaultSettings
        { font := some "opendys", fontSize := some (30 : ℚ) } :=
  ⟨by decide,
    (claim5_load_fallback_overlay
      { font := some "opendys", fontSize := some (30 : ℚ) } (by decide)).1⟩

end DyslexiaFont
